import Mathlib

/-!
Shallow embedding of `src/week1/week1_exercise/managers.py`.

The file defines two client wrappers:
  * `OpenAIManager` — talks to the hosted OpenAI chat-completion API;
  * `OllamaManager` — talks to a local Ollama daemon over HTTP.

Effects are made explicit:
  * the process environment is an `Option String` (value of `OPENAI_API_KEY`);
  * the OpenAI network stack is an oracle `ChatRequest → OpenAICallResult`
    (either a list of choice message contents, or a raised exception's text);
  * the Ollama network stack is a pair of oracles: `probe` for
    `requests.get(f"{api_url}/tags", timeout=5)` (returning a status code, or a
    raised `requests.exceptions.RequestException`'s text) and `post` for
    `requests.post(f"{api_url}/generate", json=payload, timeout=30)`
    (returning a status code, a reason phrase and a decoded-JSON-body result,
    or a raised exception's text);
  * JSON objects are association lists `List (String × String)`;
  * `display_response` returns an `AskResult`: the client after the call, the
    string handed to `display(Markdown(·))`, and the Python return value.
-/

namespace Managers

/-- One entry of the `messages` list sent to the chat-completion API. -/
structure ChatMessage where
  role : String
  content : String
deriving DecidableEq

/-- The request body built by `OpenAIManager.display_response`:
`{model, messages, stream}`. -/
structure ChatRequest where
  model : String
  messages : List ChatMessage
  stream : Bool
deriving DecidableEq

/-- Outcome of `self.client.chat.completions.create(...)`: either a response
whose choices carry the listed message contents, or a raised exception whose
`str(e)` is `msg`. -/
inductive OpenAICallResult where
  | success (contents : List String)
  | raise (msg : String)
deriving DecidableEq

/-- The `OpenAI(api_key=...)` transport handle stored on the manager. -/
structure OpenAIClient where
  api_key : Option String
deriving DecidableEq

/-- `OpenAIManager`: model identifier, resolved credential, transport handle. -/
structure OpenAIManager where
  model : String
  api_key : Option String
  client : OpenAIClient
deriving DecidableEq

/-- Python truthiness of an `Optional[str]`: `None` and `""` are falsy. -/
def pyTruthy : Option String → Bool
  | none => false
  | some s => !(s == "")

/-- Python `a or b` on `Optional[str]` values. -/
def pyOr (a b : Option String) : Option String :=
  if pyTruthy a then a else b

/-- The `ValueError` message raised by `OpenAIManager.__init__`. -/
def apiKeyErrorMsg : String :=
  "OpenAI API key is required. Set OPENAI_API_KEY environment variable or pass api_key parameter."

/-- `OpenAIManager.__init__(model, api_key)` under environment `env`
(the value of `os.getenv("OPENAI_API_KEY")`):
`self.api_key = api_key or os.getenv("OPENAI_API_KEY")`, then
`if not self.api_key: raise ValueError(...)`, then
`self.client = OpenAI(api_key=self.api_key)`. -/
def OpenAIManager.make (model : String) (api_key : Option String)
    (env : Option String) : Except String OpenAIManager :=
  let key := pyOr api_key env
  if pyTruthy key then
    .ok ⟨model, key, ⟨key⟩⟩
  else
    .error apiKeyErrorMsg

/-- The system prompt literal in `OpenAIManager.display_response`. -/
def openaiSystemPrompt : String :=
  "You are a helpful technical assistant. Provide clear, detailed explanations for technical questions."

/-- The request `OpenAIManager.display_response` passes to
`self.client.chat.completions.create`. -/
def openaiRequest (m : OpenAIManager) (question : String) : ChatRequest :=
  ⟨m.model, [⟨"system", openaiSystemPrompt⟩, ⟨"user", question⟩], false⟩

/-- Observable outcome of one `display_response` call: the client afterwards,
the string passed to `display(Markdown(·))`, and the Python return value. -/
structure AskResult (S : Type) where
  state : S
  rendered : String
  ret : Option String
deriving DecidableEq

/-- `OpenAIManager.display_response(question)` with network oracle `net`.
Inside the `try`: the create call (oracle), then
`answer = response.choices[0].message.content` — indexing an empty choice
list raises `IndexError("list index out of range")`, also caught by the
`except Exception` clause, which sets `answer = f"Error: {str(e)}"`. -/
def OpenAIManager.display_response (m : OpenAIManager)
    (net : ChatRequest → OpenAICallResult) (question : String) :
    AskResult OpenAIManager :=
  let answer : String :=
    match net (openaiRequest m question) with
    | .success contents =>
      match contents with
      | [] => "Error: list index out of range"
      | c :: _ => c
    | .raise msg => "Error: " ++ msg
  ⟨m, answer, none⟩

/-- Python `s.rstrip("/")` on the character list: drop every trailing `'/'`. -/
def rstripSlashList (l : List Char) : List Char :=
  (l.reverse.dropWhile (· == '/')).reverse

/-- Python `s.rstrip("/")`. -/
def rstripSlash (s : String) : String :=
  ⟨rstripSlashList s.data⟩

/-- `OllamaManager`: model identifier, normalized base URL, derived API root. -/
structure OllamaManager where
  model : String
  base_url : String
  api_url : String
deriving DecidableEq

/-- The default `base_url` of `OllamaManager.__init__`. -/
def ollamaDefaultBaseUrl : String := "http://localhost:11434"

/-- `OllamaManager.__init__(model, base_url)`:
`self.base_url = base_url.rstrip("/")`; `self.api_url = f"{self.base_url}/api"`. -/
def OllamaManager.make (model : String) (base_url : String) : OllamaManager :=
  let b := rstripSlash base_url
  ⟨model, b, b ++ "/api"⟩

/-- `OllamaManager.__init__` with `base_url` left at its default value. -/
def OllamaManager.makeDefault (model : String) : OllamaManager :=
  OllamaManager.make model ollamaDefaultBaseUrl

/-- Outcome of `requests.get(f"{api_url}/tags", timeout=5)`: a response with
the given status code, or a raised `requests.exceptions.RequestException`
whose text is `msg`. -/
inductive ProbeResult where
  | status (code : Nat)
  | exn (msg : String)
deriving DecidableEq

/-- `OllamaManager._check_ollama_connection()`: probe the tags endpoint with
timeout 5 and report `status_code == 200`; a `RequestException` yields
`False`. -/
def OllamaManager.check_ollama_connection (m : OllamaManager)
    (probe : String → Nat → ProbeResult) : Bool :=
  match probe (m.api_url ++ "/tags") 5 with
  | .status c => c == 200
  | .exn _ => false

/-- The `SYSTEM_PROMPT` class constant of `OllamaManager`. -/
def OllamaManager.SYSTEM_PROMPT : String :=
  "You are a helpful technical assistant. Provide clear, detailed explanations for technical questions."

/-- The JSON payload `{"model": ..., "prompt": ..., "stream": False}` POSTed
to the generate endpoint. -/
structure GenPayload where
  model : String
  prompt : String
  stream : Bool
deriving DecidableEq

/-- Outcome of `requests.post(f"{api_url}/generate", json=payload, timeout=30)`:
a response with status code, reason phrase and a JSON-decoding result for its
body (`.error msg` when `api_response.json()` raises with text `msg`), or a
raised exception whose text is `msg`. -/
inductive PostResult where
  | resp (status : Nat) (reason : String)
      (body : Except String (List (String × String)))
  | exn (msg : String)

/-- The unreachable-daemon message literal in `OllamaManager.display_response`. -/
def ollamaUnreachableMsg : String :=
  "Error: Cannot connect to Ollama. Make sure Ollama is running on localhost:11434"

/-- Text of the `requests.exceptions.HTTPError` raised by
`raise_for_status()` for a 4xx/5xx response. -/
def httpErrorMessage (status : Nat) (reason url : String) : String :=
  if status < 500 then
    toString status ++ " Client Error: " ++ reason ++ " for url: " ++ url
  else
    toString status ++ " Server Error: " ++ reason ++ " for url: " ++ url

/-- The payload built by `OllamaManager.display_response`:
`prompt = f"{self.SYSTEM_PROMPT}\n\nQuestion: {question}"`, `stream=False`. -/
def ollamaPayload (m : OllamaManager) (question : String) : GenPayload :=
  ⟨m.model, OllamaManager.SYSTEM_PROMPT ++ "\n\nQuestion: " ++ question, false⟩

/-- `OllamaManager.display_response(question)` with oracles `probe` and `post`.
If the connection check fails, the unreachable literal is rendered and the
generate endpoint is never consulted. Otherwise the payload is POSTed with
timeout 30; `raise_for_status()` raises `HTTPError` for 400–599 statuses;
`api_response.json()` may raise a decode error; `result.get("response",
"No response received")` extracts the answer. Every exception in the `try`
block becomes `f"Error: {str(e)}"`. -/
def OllamaManager.display_response (m : OllamaManager)
    (probe : String → Nat → ProbeResult)
    (post : String → GenPayload → Nat → PostResult)
    (question : String) : AskResult OllamaManager :=
  let response : String :=
    if !(m.check_ollama_connection probe) then
      ollamaUnreachableMsg
    else
      match post (m.api_url ++ "/generate") (ollamaPayload m question) 30 with
      | .exn msg => "Error: " ++ msg
      | .resp status reason body =>
        if 400 ≤ status ∧ status < 600 then
          "Error: " ++ httpErrorMessage status reason (m.api_url ++ "/generate")
        else
          match body with
          | .error msg => "Error: " ++ msg
          | .ok obj =>
            match obj.lookup "response" with
            | some v => v
            | none => "No response received"
  ⟨m, response, none⟩

end Managers

namespace Managers

/-- If the connection check fails, `display_response` renders the unreachable
literal. -/
lemma ollama_rendered_of_check_false (m : OllamaManager)
    (probe : String → Nat → ProbeResult)
    (post : String → GenPayload → Nat → PostResult) (q : String)
    (hc : m.check_ollama_connection probe = false) :
    m.display_response probe post q = ⟨m, ollamaUnreachableMsg, none⟩ := by
  simp [OllamaManager.display_response, hc]

/-- A probe exception makes the connection check return `false`. -/
lemma check_false_of_probe_exn (m : OllamaManager)
    (probe : String → Nat → ProbeResult) (msg : String)
    (h : probe (m.api_url ++ "/tags") 5 = .exn msg) :
    m.check_ollama_connection probe = false := by
  simp [OllamaManager.check_ollama_connection, h]

/-- A non-200 probe status makes the connection check return `false`. -/
lemma check_false_of_probe_status (m : OllamaManager)
    (probe : String → Nat → ProbeResult) (c : Nat)
    (h : probe (m.api_url ++ "/tags") 5 = .status c) (hne : c ≠ 200) :
    m.check_ollama_connection probe = false := by
  simp [OllamaManager.check_ollama_connection, h, hne]

/-- A 200 probe status makes the connection check return `true`. -/
lemma check_true_of_probe_200 (m : OllamaManager)
    (probe : String → Nat → ProbeResult)
    (h : probe (m.api_url ++ "/tags") 5 = .status 200) :
    m.check_ollama_connection probe = true := by
  simp [OllamaManager.check_ollama_connection, h]

end Managers

namespace Managers

/-- C2: constructing `OpenAIManager` with no explicit `api_key` argument and no
credential in the process environment always raises the `ValueError` at
construction time: `make` returns `.error` with the configuration message, for
every model string. -/
theorem c2_no_credential_raises (model : String) :
    OpenAIManager.make model none none = .error apiKeyErrorMsg := by
  rfl

/-- C5: constructing `OpenAIManager` with an explicit non-empty credential
succeeds for every state of the `OPENAI_API_KEY` environment variable, and the
stored credential (and the one handed to the `OpenAI` client) is the explicit
argument, not the environment value. -/
theorem c5_explicit_credential_wins (model k : String) (env : Option String)
    (hk : k ≠ "") :
    OpenAIManager.make model (some k) env = .ok ⟨model, some k, ⟨some k⟩⟩ := by
  simp [OpenAIManager.make, pyOr, pyTruthy, hk]

/-- Witness for C5 at a concrete credential and a populated environment. -/
theorem c5_witness :
    OpenAIManager.make "gpt-4o-mini" (some "sk-test") (some "env-key") =
      .ok ⟨"gpt-4o-mini", some "sk-test", ⟨some "sk-test"⟩⟩ :=
  c5_explicit_credential_wins "gpt-4o-mini" "sk-test" (some "env-key")
    (by decide)

/-- C10: an explicit empty-string credential is falsy under Python `or`, so the
constructor behaves exactly as if no explicit credential were given; in
particular it raises the configuration error whenever the environment variable
is also unset or empty. -/
theorem c10_empty_credential_falls_back (model : String) (env : Option String) :
    OpenAIManager.make model (some "") env = OpenAIManager.make model none env
    ∧ (pyTruthy env = false →
        OpenAIManager.make model (some "") env = .error apiKeyErrorMsg) := by
  constructor
  · rfl
  · intro h
    have h0 : pyTruthy (some "") = false := rfl
    simp [OpenAIManager.make, pyOr, h0, h]

/-- Witness for C10: empty explicit key with an unset environment variable. -/
theorem c10_witness :
    OpenAIManager.make "gpt-4o-mini" (some "") none =
      OpenAIManager.make "gpt-4o-mini" none none
    ∧ OpenAIManager.make "gpt-4o-mini" (some "") none =
      .error apiKeyErrorMsg :=
  ⟨(c10_empty_credential_falls_back "gpt-4o-mini" none).1,
   (c10_empty_credential_falls_back "gpt-4o-mini" none).2 rfl⟩

end Managers

namespace Managers

/-- A concrete, successfully constructed `OpenAIManager` for witnesses. -/
def openAIConcrete : OpenAIManager :=
  ⟨"gpt-4o-mini", some "sk-test", ⟨some "sk-test"⟩⟩

/-- A concrete `OllamaManager` at the default base URL for witnesses. -/
def ollamaConcrete : OllamaManager :=
  OllamaManager.make "llama3.2" "http://localhost:11434"

/-- C1: for either client, an exception raised during the network exchange
inside `display_response` is caught and the rendered answer begins with
`"Error: "`; `display_response` is a total function into `AskResult`, so no
exception propagates out of it. The three conjuncts cover the OpenAI create
call, the Ollama liveness probe, and the Ollama generate request. -/
theorem c1_ask_exceptions_caught :
    (∀ (m : OpenAIManager) (net : ChatRequest → OpenAICallResult)
       (q msg : String),
       net (openaiRequest m q) = .raise msg →
       ∃ rest, (m.display_response net q).rendered = "Error: " ++ rest)
    ∧ (∀ (m : OllamaManager) (probe : String → Nat → ProbeResult)
         (post : String → GenPayload → Nat → PostResult) (q msg : String),
         probe (m.api_url ++ "/tags") 5 = .exn msg →
         ∃ rest, (m.display_response probe post q).rendered = "Error: " ++ rest)
    ∧ (∀ (m : OllamaManager) (probe : String → Nat → ProbeResult)
         (post : String → GenPayload → Nat → PostResult) (q msg : String),
         post (m.api_url ++ "/generate") (ollamaPayload m q) 30 = .exn msg →
         ∃ rest, (m.display_response probe post q).rendered = "Error: " ++ rest) := by
  refine ⟨?_, ?_, ?_⟩
  · intro m net q msg h
    exact ⟨msg, by simp [OpenAIManager.display_response, h]⟩
  · intro m probe post q msg h
    refine ⟨"Cannot connect to Ollama. Make sure Ollama is running on localhost:11434", ?_⟩
    rw [ollama_rendered_of_check_false m probe post q
      (check_false_of_probe_exn m probe msg h)]
    rfl
  · intro m probe post q msg h
    by_cases hc : m.check_ollama_connection probe
    · exact ⟨msg, by simp [OllamaManager.display_response, hc, h]⟩
    · refine ⟨"Cannot connect to Ollama. Make sure Ollama is running on localhost:11434", ?_⟩
      rw [ollama_rendered_of_check_false m probe post q
        (eq_false_of_ne_true hc)]
      rfl

/-- Witness for C1: each conjunct applied at a concrete client, question and
raising oracle. -/
theorem c1_witness :
    (∃ rest,
      (openAIConcrete.display_response (fun _ => .raise "boom") "q").rendered =
        "Error: " ++ rest)
    ∧ (∃ rest,
      (ollamaConcrete.display_response (fun _ _ => .exn "timeout")
          (fun _ _ _ => .exn "post-fail") "q").rendered = "Error: " ++ rest)
    ∧ (∃ rest,
      (ollamaConcrete.display_response (fun _ _ => .status 200)
          (fun _ _ _ => .exn "post-fail") "q").rendered = "Error: " ++ rest) :=
  ⟨c1_ask_exceptions_caught.1 openAIConcrete (fun _ => .raise "boom") "q" "boom" rfl,
   c1_ask_exceptions_caught.2.1 ollamaConcrete (fun _ _ => .exn "timeout")
     (fun _ _ _ => .exn "post-fail") "q" "timeout" rfl,
   c1_ask_exceptions_caught.2.2 ollamaConcrete (fun _ _ => .status 200)
     (fun _ _ _ => .exn "post-fail") "q" "post-fail" rfl⟩

/-- C3: if the liveness probe raises or returns a non-200 status, the rendered
answer is exactly the unreachable literal, and the whole result is independent
of the generate oracle — the generate endpoint is never consulted. -/
theorem c3_probe_failure_skips_generate
    (m : OllamaManager) (probe : String → Nat → ProbeResult)
    (post post' : String → GenPayload → Nat → PostResult) (q : String)
    (h : (∃ msg, probe (m.api_url ++ "/tags") 5 = .exn msg) ∨
         (∃ c, probe (m.api_url ++ "/tags") 5 = .status c ∧ c ≠ 200)) :
    (m.display_response probe post q).rendered =
      "Error: Cannot connect to Ollama. Make sure Ollama is running on localhost:11434"
    ∧ m.display_response probe post q = m.display_response probe post' q := by
  have hc : m.check_ollama_connection probe = false := by
    rcases h with ⟨msg, hm⟩ | ⟨c, hcs, hne⟩
    · exact check_false_of_probe_exn m probe msg hm
    · exact check_false_of_probe_status m probe c hcs hne
  rw [ollama_rendered_of_check_false m probe post q hc,
      ollama_rendered_of_check_false m probe post' q hc]
  exact ⟨rfl, rfl⟩

/-- Witness for C3 at a 404 probe status and two different generate oracles. -/
theorem c3_witness :
    (ollamaConcrete.display_response (fun _ _ => .status 404)
        (fun _ _ _ => .exn "unused") "hi").rendered =
      "Error: Cannot connect to Ollama. Make sure Ollama is running on localhost:11434"
    ∧ ollamaConcrete.display_response (fun _ _ => .status 404)
        (fun _ _ _ => .exn "unused") "hi" =
      ollamaConcrete.display_response (fun _ _ => .status 404)
        (fun _ _ _ => .resp 200 "OK" (.ok [])) "hi" :=
  c3_probe_failure_skips_generate ollamaConcrete (fun _ _ => .status 404)
    (fun _ _ _ => .exn "unused") (fun _ _ _ => .resp 200 "OK" (.ok [])) "hi"
    (.inr ⟨404, rfl, by decide⟩)

/-- C9: whatever base URL the local client was constructed with, a probe
failure renders the fixed literal naming `localhost:11434`; the message never
reflects the configured base URL. -/
theorem c9_unreachable_message_ignores_base_url
    (model b q : String) (probe : String → Nat → ProbeResult)
    (post : String → GenPayload → Nat → PostResult) (msg : String)
    (h : probe ((OllamaManager.make model b).api_url ++ "/tags") 5 = .exn msg) :
    ((OllamaManager.make model b).display_response probe post q).rendered =
      "Error: Cannot connect to Ollama. Make sure Ollama is running on localhost:11434" := by
  rw [ollama_rendered_of_check_false (OllamaManager.make model b) probe post q
    (check_false_of_probe_exn (OllamaManager.make model b) probe msg h)]
  rfl

/-- Witness for C9 at a non-default base URL and a timed-out probe. -/
theorem c9_witness :
    ((OllamaManager.make "llama3.2" "http://example.com:9999/").display_response
        (fun _ _ => .exn "timed out") (fun _ _ _ => .exn "unused") "hi").rendered =
      "Error: Cannot connect to Ollama. Make sure Ollama is running on localhost:11434" :=
  c9_unreachable_message_ignores_base_url "llama3.2" "http://example.com:9999/"
    "hi" (fun _ _ => .exn "timed out") (fun _ _ _ => .exn "unused") "timed out" rfl

end Managers

namespace Managers

/-- C4: when the probe answers 200 and the generate request returns a 2xx
status with a decodable JSON body, the rendered answer is the body's
`response` field when present, and `"No response received"` when absent. -/
theorem c4_generate_success_rendering
    (m : OllamaManager) (probe : String → Nat → ProbeResult)
    (post : String → GenPayload → Nat → PostResult) (q : String)
    (s : Nat) (reason : String) (obj : List (String × String))
    (hp : probe (m.api_url ++ "/tags") 5 = .status 200)
    (hg : post (m.api_url ++ "/generate") (ollamaPayload m q) 30 =
      .resp s reason (.ok obj))
    (h2 : 200 ≤ s) (h3 : s < 300) :
    (∀ v, obj.lookup "response" = some v →
      (m.display_response probe post q).rendered = v)
    ∧ (obj.lookup "response" = none →
      (m.display_response probe post q).rendered = "No response received") := by
  have hc := check_true_of_probe_200 m probe hp
  have hns : ¬ (400 ≤ s ∧ s < 600) := by omega
  constructor
  · intro v hv
    simp [OllamaManager.display_response, hc, hg, hns, hv]
  · intro hv
    simp [OllamaManager.display_response, hc, hg, hns, hv]

/-- Witness for C4: a generate body carrying `response = "X"`, and one whose
only key is `other`. -/
theorem c4_witness :
    (ollamaConcrete.display_response (fun _ _ => .status 200)
        (fun _ _ _ => .resp 200 "OK" (.ok [("response", "X")])) "hi").rendered
      = "X"
    ∧ (ollamaConcrete.display_response (fun _ _ => .status 200)
        (fun _ _ _ => .resp 200 "OK" (.ok [("other", "Y")])) "hi").rendered
      = "No response received" :=
  ⟨(c4_generate_success_rendering ollamaConcrete (fun _ _ => .status 200)
      (fun _ _ _ => .resp 200 "OK" (.ok [("response", "X")])) "hi" 200 "OK"
      [("response", "X")] rfl rfl (by decide) (by decide)).1 "X" rfl,
   (c4_generate_success_rendering ollamaConcrete (fun _ _ => .status 200)
      (fun _ _ _ => .resp 200 "OK" (.ok [("other", "Y")])) "hi" 200 "OK"
      [("other", "Y")] rfl rfl (by decide) (by decide)).2 rfl⟩

/-- C6: the remote client's Ask builds exactly the two-message request — the
fixed system instruction then the user question — with `stream = false`; the
outcome depends on the oracle only at that request; and on success the
rendered answer is the first choice's message content. -/
theorem c6_openai_request_and_success (m : OpenAIManager) (q : String) :
    openaiRequest m q =
      ⟨m.model,
       [⟨"system", "You are a helpful technical assistant. Provide clear, detailed explanations for technical questions."⟩,
        ⟨"user", q⟩], false⟩
    ∧ (∀ net net' : ChatRequest → OpenAICallResult,
        net (openaiRequest m q) = net' (openaiRequest m q) →
        m.display_response net q = m.display_response net' q)
    ∧ (∀ (net : ChatRequest → OpenAICallResult) (c : String) (cs : List String),
        net (openaiRequest m q) = .success (c :: cs) →
        (m.display_response net q).rendered = c) := by
  refine ⟨rfl, ?_, ?_⟩
  · intro net net' h
    simp [OpenAIManager.display_response, h]
  · intro net c cs h
    simp [OpenAIManager.display_response, h]

/-- Witness for C6: the mocked transport answering `"42"`. -/
theorem c6_witness :
    openaiRequest openAIConcrete "What is 6*7?" =
      ⟨"gpt-4o-mini",
       [⟨"system", "You are a helpful technical assistant. Provide clear, detailed explanations for technical questions."⟩,
        ⟨"user", "What is 6*7?"⟩], false⟩
    ∧ openAIConcrete.display_response (fun _ => .success ["42"]) "What is 6*7?" =
      openAIConcrete.display_response
        (fun r => if r.stream then .raise "z" else .success ["42"]) "What is 6*7?"
    ∧ (openAIConcrete.display_response (fun _ => .success ["42"])
        "What is 6*7?").rendered = "42" :=
  ⟨(c6_openai_request_and_success openAIConcrete "What is 6*7?").1,
   (c6_openai_request_and_success openAIConcrete "What is 6*7?").2.1
     (fun _ => .success ["42"])
     (fun r => if r.stream then .raise "z" else .success ["42"]) rfl,
   (c6_openai_request_and_success openAIConcrete "What is 6*7?").2.2
     (fun _ => .success ["42"]) "42" [] rfl⟩

/-- C8: for either client, `display_response` returns `None` to the caller and
leaves the client state — hence every field — unchanged. -/
theorem c8_ask_frame
    (m : OpenAIManager) (net : ChatRequest → OpenAICallResult) (q : String)
    (om : OllamaManager) (probe : String → Nat → ProbeResult)
    (post : String → GenPayload → Nat → PostResult) (q' : String) :
    (m.display_response net q).state = m
    ∧ (m.display_response net q).ret = none
    ∧ (om.display_response probe post q').state = om
    ∧ (om.display_response probe post q').ret = none :=
  ⟨rfl, rfl, rfl, rfl⟩

end Managers

namespace Managers

/-- Every member of `takeWhile (· == '/')` is a slash. -/
lemma mem_takeWhile_slash :
    ∀ (l : List Char) (b : Char), b ∈ l.takeWhile (· == '/') → b = '/' := by
  intro l
  induction l with
  | nil =>
    intro b hb
    simp [List.takeWhile] at hb
  | cons a t ih =>
    intro b hb
    rw [List.takeWhile_cons] at hb
    by_cases hp : (a == '/') = true
    · rw [if_pos hp] at hb
      rcases List.mem_cons.mp hb with h | h
      · exact h ▸ eq_of_beq hp
      · exact ih b h
    · rw [if_neg hp] at hb
      exact absurd hb (List.not_mem_nil b)

/-- Every element of `takeWhile (· == '/')` is a slash, so the prefix is a
replicate of slashes. -/
lemma takeWhile_slash_eq_replicate (l : List Char) :
    l.takeWhile (· == '/') =
      List.replicate (l.takeWhile (· == '/')).length '/' :=
  List.eq_replicate_of_mem (fun b hb => mem_takeWhile_slash l b hb)

/-- `rstrip`ping slashes only removes trailing slashes: the original character
list is the stripped list followed by some run of slashes. -/
lemma rstripSlashList_decomp (l : List Char) :
    ∃ k, l = rstripSlashList l ++ List.replicate k '/' := by
  refine ⟨(l.reverse.takeWhile (· == '/')).length, ?_⟩
  calc l = l.reverse.reverse := l.reverse_reverse.symm
    _ = (l.reverse.takeWhile (· == '/') ++ l.reverse.dropWhile (· == '/')).reverse := by
        rw [List.takeWhile_append_dropWhile]
    _ = (l.reverse.dropWhile (· == '/')).reverse ++
          (l.reverse.takeWhile (· == '/')).reverse :=
        List.reverse_append _ _
    _ = rstripSlashList l ++
          List.replicate (l.reverse.takeWhile (· == '/')).length '/' := by
        rw [takeWhile_slash_eq_replicate l.reverse]
        simp [rstripSlashList]

/-- The stripped list never ends in a slash. -/
lemma rstripSlashList_getLast_ne (l : List Char) :
    (rstripSlashList l).getLast? ≠ some '/' := by
  rw [rstripSlashList, List.getLast?_reverse]
  intro h
  have hd := List.head?_dropWhile_not (fun c => c == '/') l.reverse
  rw [h] at hd
  simp at hd

/-- C7: the local client's constructor stores the base URL with every trailing
slash removed (and removes nothing else), derives the API root by appending
`"/api"`, and defaults the base URL to `"http://localhost:11434"`; the
`OllamaManager` state carries no credential field at all. -/
theorem c7_ollama_constructor (model b : String) :
    (OllamaManager.make model b).base_url = rstripSlash b
    ∧ (OllamaManager.make model b).api_url =
        (OllamaManager.make model b).base_url ++ "/api"
    ∧ (∃ k, b.data = (OllamaManager.make model b).base_url.data ++
        List.replicate k '/')
    ∧ (OllamaManager.make model b).base_url.data.getLast? ≠ some '/'
    ∧ OllamaManager.makeDefault model =
        OllamaManager.make model "http://localhost:11434" := by
  exact ⟨rfl, rfl, rstripSlashList_decomp b.data,
    rstripSlashList_getLast_ne b.data, rfl⟩

/-- Witness for C7 at a base URL with two trailing slashes. -/
theorem c7_witness :
    (OllamaManager.make "llama3.2" "http://host//").base_url =
      rstripSlash "http://host//"
    ∧ (OllamaManager.make "llama3.2" "http://host//").api_url =
        (OllamaManager.make "llama3.2" "http://host//").base_url ++ "/api"
    ∧ (∃ k, "http://host//".data =
        (OllamaManager.make "llama3.2" "http://host//").base_url.data ++
          List.replicate k '/')
    ∧ (OllamaManager.make "llama3.2" "http://host//").base_url.data.getLast? ≠
        some '/'
    ∧ OllamaManager.makeDefault "llama3.2" =
        OllamaManager.make "llama3.2" "http://localhost:11434" :=
  c7_ollama_constructor "llama3.2" "http://host//"

end Managers
